import Mathlib

/-!
Verification of the flake8-rst-docstrings plugin
(src/flake8_rst_docstrings.py) against its natural-language specification.

The Python code is shallowly embedded: Python strings are modelled as
lists of characters (`List Char`); only the `'\n'` line terminator of
Python's `str.splitlines` is modelled, and stripping covers the ASCII
whitespace characters.  A Python function that can raise is modelled with
`Option`/`Except`, where `none`/`Except.error` stands for the exception.
-/

namespace RstDocstrings

/-- ASCII whitespace, as stripped by Python's `str.strip` family and matched
by the regex class `\s`. -/
def pyIsSpace (c : Char) : Bool :=
  c = ' ' || c = '\t' || c = '\n' || c = '\r' || c = '\x0B' || c = '\x0C'

/-- Python `str.lstrip()` (no argument: strip leading whitespace). -/
def lstrip (s : List Char) : List Char :=
  s.dropWhile pyIsSpace

/-- Python `str.rstrip()` (no argument: strip trailing whitespace). -/
def rstrip (s : List Char) : List Char :=
  (s.reverse.dropWhile pyIsSpace).reverse

/-- Python `str.strip()` (no argument: strip surrounding whitespace). -/
def strip (s : List Char) : List Char :=
  rstrip (lstrip s)

/-- Python `str.splitlines` for `'\n'`-terminated lines: split on `'\n'`,
dropping the empty piece a trailing newline would otherwise produce, and
mapping the empty string to no lines at all. -/
def splitlines (s : List Char) : List (List Char) :=
  if s = [] then []
  else if s.getLast? = some '\n' then (s.splitOn '\n').dropLast
  else s.splitOn '\n'

/-- Python `"\n".join(lines)`. -/
def joinlines (ls : List (List Char)) : List Char :=
  (ls.intersperse ['\n']).flatten

/-- Helper for `expandtabs`: the column counter threaded through the
characters.  A tab is replaced by spaces up to the next multiple of the
tab size (8); a line boundary resets the column to 0. -/
def expandtabsAux : List Char → Nat → List Char
  | [], _ => []
  | c :: rest, col =>
    if c = '\t' then
      List.replicate (8 - col % 8) ' ' ++ expandtabsAux rest (col + (8 - col % 8))
    else if c = '\n' || c = '\r' then
      c :: expandtabsAux rest 0
    else
      c :: expandtabsAux rest (col + 1)

/-- Python `str.expandtabs()` with the default tab size of 8, as called on
the first line of `trim` (source line 124). -/
def expandtabs (s : List Char) : List Char :=
  expandtabsAux s 0

/-- One step of the `indent` loop of `trim` (source lines 127-130):
`indent = min(indent, len(line) - len(stripped))` for a non-blank line.
The untouched `sys.maxsize` sentinel is modelled as `none`. -/
def minIndentStep (acc : Option Nat) (line : List Char) : Option Nat :=
  if lstrip line ≠ [] then
    some (match acc with
          | none => line.length - (lstrip line).length
          | some i => min i (line.length - (lstrip line).length))
  else acc

/-- The `indent` computed by `trim` over `lines[1:]` (source lines 126-130):
the minimum indentation over the non-blank lines, `none` when every line is
blank (the `sys.maxsize` sentinel survives). -/
def minIndent (ls : List (List Char)) : Option Nat :=
  ls.foldl minIndentStep none

/-- The list `trimmed` built by `trim` (source lines 131-135) before the
final join: the stripped first line, then - only when an indent was
established - each later line with the indent removed and trailing
whitespace stripped.  The input is non-empty at every call site, so the
line list is non-empty and `headD` never falls back to its default. -/
def trimmedLines (docstring : List Char) : List (List Char) :=
  let lines := splitlines (expandtabs docstring)
  match minIndent lines.tail with
  | some indent =>
      strip (lines.headD []) :: lines.tail.map (fun line => rstrip (line.drop indent))
  | none => [strip (lines.headD [])]

/-- The function trim (source lines 118-143): the PEP257 docstring
indentation-removal algorithm, with the final blank-line stripping of the
reference version deliberately commented out in the source. -/
def trim (docstring : List Char) : List Char :=
  if docstring = [] then []
  else joinlines (trimmedLines docstring)

/-- Whether the regex match `re.match(r"^\s+$", line)` succeeds (source
line 193): the line is non-empty and consists of whitespace only. -/
def pureWhitespace (line : List Char) : Bool :=
  !line.isEmpty && line.all pyIsSpace

/-- The value doc_start_lineno computed by `Visitor._check_docstring`
(source lines 187-202) from the first body statement's line number and the
raw docstring: the line count of the docstring, incremented by one unless
the last line is pure whitespace, is subtracted from the statement's line;
a one-line docstring instead subtracts exactly 1. -/
def doc_start_lineno (doc_end_lineno : Int) (docstring : List Char) : Int :=
  let split_docstring := splitlines docstring
  let doc_line_length : Nat :=
    if pureWhitespace (split_docstring.getLastD []) then split_docstring.length
    else split_docstring.length + 1
  if split_docstring.length = 1 then doc_end_lineno - 1
  else doc_end_lineno - doc_line_length

/-- The constant rst_prefix (source line 20). -/
def rstPrefix : String := "RST"

/-- The constant rst_fail_lint (source line 24). -/
def rst_fail_lint : Nat := 903

/-- Level 1 (info) message table code_mapping_info (source lines 27-30). -/
def code_mapping_info : List (String × Nat) := [
  ("Possible title underline, too short for the title.", 1),
  ("Unexpected possible title overline or transition.", 2)]

/-- Level 2 (warning) message table code_mapping_warning (source
lines 33-54). -/
def code_mapping_warning : List (String × Nat) := [
  ("Block quote ends without a blank line; unexpected unindent.", 1),
  ("Bullet list ends without a blank line; unexpected unindent.", 2),
  ("Definition list ends without a blank line; unexpected unindent.", 3),
  ("Enumerated list ends without a blank line; unexpected unindent.", 4),
  ("Explicit markup ends without a blank line; unexpected unindent.", 5),
  ("Field list ends without a blank line; unexpected unindent.", 6),
  ("Literal block ends without a blank line; unexpected unindent.", 7),
  ("Option list ends without a blank line; unexpected unindent.", 8),
  ("Inline strong start-string without end-string.", 10),
  ("Blank line required after table.", 11),
  ("Title underline too short.", 12),
  ("Inline emphasis start-string without end-string.", 13),
  ("Inline literal start-string without end-string.", 14),
  ("Inline interpreted text or phrase reference start-string without end-string.", 15),
  ("Multiple roles in interpreted text (both prefix and suffix present; only one allowed).", 16),
  ("Mismatch: both interpreted text role suffix and reference suffix.", 17),
  ("Literal block expected; none found.", 18),
  ("Inline substitution_reference start-string without end-string.", 19)]

/-- Level 3 (error) message table code_mapping_error (source lines 57-68). -/
def code_mapping_error : List (String × Nat) := [
  ("Unexpected indentation.", 1),
  ("Malformed table.", 2),
  ("Unknown directive type", 3),
  ("Unknown interpreted text role", 4),
  ("Undefined substitution referenced:", 5),
  ("Unknown target name:", 6)]

/-- Level 4 (severe) message table code_mapping_severe (source line 71). -/
def code_mapping_severe : List (String × Nat) := [
  ("Unexpected section title.", 1)]

/-- The dictionary code_mappings_by_level (source lines 73-78); indexing it
with a level outside 1..4 raises a KeyError, modelled as `none`. -/
def code_mappings_by_level : Nat → Option (List (String × Nat))
  | 1 => some code_mapping_info
  | 2 => some code_mapping_warning
  | 3 => some code_mapping_error
  | 4 => some code_mapping_severe
  | _ => none

/-- Python dict lookup `table[msg]` / `table.get(msg)` on a modelled table
(the tables have pairwise distinct keys, so first-match lookup agrees with
the dict). -/
def lookupMsg : List (String × Nat) → String → Option Nat
  | [], _ => none
  | (key, code) :: rest, msg => if msg = key then some code else lookupMsg rest msg

/-- Whether the substring check `' "' in msg` succeeds. -/
def hasSpaceQuote : List Char → Bool
  | ' ' :: '\"' :: _ => true
  | _ :: rest => hasSpaceQuote rest
  | [] => false

/-- Whether `msg.endswith('".')` succeeds. -/
def endsWithQuoteDot (s : List Char) : Bool :=
  s.reverse.take 2 = ['.', '\"']

/-- The slice `msg[: msg.index(' "')]` (source line 94): the characters
before the first occurrence of a space-quote pair. -/
def beforeSpaceQuote : List Char → List Char
  | ' ' :: '\"' :: _ => []
  | c :: rest => c :: beforeSpaceQuote rest
  | [] => []

/-- The expression `msg.split('"', 2)[1]` on a message holding exactly two
double quotes: the characters strictly between the first and the second
double quote. -/
def betweenQuotes (s : List Char) : List Char :=
  ((s.dropWhile (fun c => c ≠ '\"')).drop 1).takeWhile (fun c => c ≠ '\"')

/-- The function code_mapping (source lines 81-101).  The result is `none`
exactly when the Python call raises: a KeyError from line 100 when the
level lies outside 1..4 and the message fits the quoted-variable pattern
(the KeyError of line 84 is caught and ignored).  The Python default
argument for the last parameter is 99 at every call site. -/
def code_mapping (level : Nat) (msg : String)
    (extra_directives extra_roles : List String) (default : Nat) : Option Nat :=
  match (code_mappings_by_level level).bind (fun table => lookupMsg table msg) with
  | some code => some code
  | none =>
    if (msg.data.count '\"' == 2) && hasSpaceQuote msg.data && endsWithQuoteDot msg.data then
      let txt := String.mk (beforeSpaceQuote msg.data)
      let value := String.mk (betweenQuotes msg.data)
      if txt = "Unknown directive type" && extra_directives.contains value then
        some 0
      else if txt = "Unknown interpreted text role" && extra_roles.contains value then
        some 0
      else
        match code_mappings_by_level level with
        | some table => some ((lookupMsg table txt).getD default)
        | none => none
    else some default

/-- The formatting directive `"%03i" % code` for a non-negative code:
the decimal digits, zero-padded on the left to width 3. -/
def format03 (n : Nat) : String :=
  String.mk (List.replicate (3 - (toString n).length) '0') ++ toString n

/-- The expression `message.split("\n", 1)[0]` (source line 226): the first
line of a validator message. -/
def firstLine (s : String) : String :=
  String.mk (s.data.takeWhile (fun c => c ≠ '\n'))

/-- A violation returned by the external validator rst_lint.lint: a severity
level, a 1-based line offset within the linted text, and a free-text
message. -/
structure Violation where
  level : Nat
  line : Int
  message : String
deriving DecidableEq, Repr

/-- The kind of AST node `Visitor` dispatches on: visit_Module,
visit_ClassDef and visit_FunctionDef all call `_check_docstring` and then
`generic_visit`. -/
inductive NodeKind where
  | module
  | classDef
  | functionDef
deriving DecidableEq, Repr

/-- An AST node as `Visitor._check_docstring` consumes it:
its kind, its `name` attribute (`none` for `ast.Module`, which has no such
attribute), its `col_offset`, the first body statement when that statement
is a bare string-literal expression (the string value together with the
`lineno` of the literal), and the module/class/function definitions
`generic_visit` reaches inside it, in document order. -/
inductive PyNode where
  | mk (kind : NodeKind) (name : Option String) (col_offset : Int)
       (firstStmtStr : Option (String × Int)) (children : List PyNode)

/-- The kind of a node. -/
def PyNode.kind : PyNode → NodeKind
  | .mk k _ _ _ _ => k

/-- The `name` attribute of a node (`none` for the module root). -/
def PyNode.name : PyNode → Option String
  | .mk _ n _ _ _ => n

/-- The `col_offset` attribute of a node. -/
def PyNode.col_offset : PyNode → Int
  | .mk _ _ c _ _ => c

/-- The first body statement, when it is a bare string-literal expression:
its string value and its line number. -/
def PyNode.firstStmtStr : PyNode → Option (String × Int)
  | .mk _ _ _ f _ => f

/-- The definition nodes visited inside this node. -/
def PyNode.children : PyNode → List PyNode
  | .mk _ _ _ _ c => c

/-- The call `ast.get_docstring(node, clean=False)` (source line 177):
the string value of the first body statement when that statement is a bare
string literal, `None` otherwise (also `None` for an empty body). -/
def get_docstring (node : PyNode) : Option String :=
  node.firstStmtStr.map Prod.fst

/-- The violation loop of `Visitor._check_docstring` (source lines
213-245), parameterised by the already-computed doc_start_lineno and
col_offset: the list of diagnostics appended to `self.errors`, paired with
the message of an exception when one iteration raises (the KeyError of
code_mapping on a level outside 1..4, or the `assert 0 < code < 100`;
the exception text is modelled abstractly).  Diagnostics appended before
such an exception stay appended. -/
def processViolations (docStart colOffset : Int)
    (extra_directives extra_roles : List String) :
    List Violation → List (Int × Int × String) × Option String
  | [] => ([], none)
  | v :: rest =>
    if v.level ≤ 1 then
      processViolations docStart colOffset extra_directives extra_roles rest
    else
      let msg := firstLine v.message
      match code_mapping v.level msg extra_directives extra_roles 99 with
      | none => ([], some ("KeyError: " ++ toString v.level))
      | some code =>
        if code = 0 then
          processViolations docStart colOffset extra_directives extra_roles rest
        else if code < 100 then
          let d := (docStart + v.line, colOffset,
                    rstPrefix ++ format03 (code + 100 * v.level) ++ " " ++ msg)
          let out := processViolations docStart colOffset extra_directives extra_roles rest
          (d :: out.1, out.2)
        else ([], some "AssertionError")

/-- The diagnostic appended by the `except` handler of
`Visitor._check_docstring` (source lines 247-255) for a node whose `name`
attribute exists. -/
def lintFailureDiag (docStart colOffset : Int) (nm err : String) :
    Int × Int × String :=
  (docStart, colOffset,
   rstPrefix ++ format03 rst_fail_lint ++ " " ++
     ("Failed to lint docstring: " ++ nm ++ " - " ++ err))

/-- The method `Visitor._check_docstring` (source lines 176-255),
parameterised by the external validator rst_lint.lint (whose
`Except.error` is an exception the call raises).  The result is the list
of tuples appended to `self.errors`, or `Except.error` for an exception
escaping the method: the `except` handler formats `node.name`, and
`ast.Module` has no `name` attribute, so reaching the handler on a module
node raises an AttributeError (exception text modelled abstractly).  An
escaping exception aborts the whole traversal, so diagnostics appended
before it are never surfaced and are dropped here. -/
def checkDocstring (lint : String → Except String (List Violation))
    (extra_directives extra_roles : List String) (node : PyNode) :
    Except String (List (Int × Int × String)) :=
  match node.firstStmtStr with
  | none => Except.ok []
  | some (docstring, doc_end_lineno) =>
    if docstring = "" then Except.ok []
    else
      let colOffset : Int :=
        if node.kind = NodeKind.module then -1 else node.col_offset
      let docStart := doc_start_lineno doc_end_lineno docstring.data
      match lint (String.mk (trim docstring.data)) with
      | Except.error err =>
          match node.name with
          | some nm =>
              Except.ok [lintFailureDiag docStart colOffset nm err]
          | none => Except.error "AttributeError: Module object has no attribute name"
      | Except.ok violations =>
          match processViolations docStart colOffset extra_directives extra_roles
                  violations with
          | (ds, none) => Except.ok ds
          | (ds, some err) =>
              match node.name with
              | some nm =>
                  Except.ok (ds ++ [lintFailureDiag docStart colOffset nm err])
              | none => Except.error "AttributeError: Module object has no attribute name"

mutual

/-- The traversal `Visitor.visit` on a module/class/function node: check
the node's docstring, then `generic_visit` recurses into the children;
an escaping exception aborts the traversal. -/
def visitNode (lint : String → Except String (List Violation))
    (extra_directives extra_roles : List String) :
    PyNode → Except String (List (Int × Int × String))
  | PyNode.mk k nm col fss children =>
    match checkDocstring lint extra_directives extra_roles (PyNode.mk k nm col fss children) with
    | Except.error e => Except.error e
    | Except.ok own =>
      match visitChildren lint extra_directives extra_roles children with
      | Except.error e => Except.error e
      | Except.ok rest => Except.ok (own ++ rest)

/-- The recursion of `generic_visit` over a list of child nodes. -/
def visitChildren (lint : String → Except String (List Violation))
    (extra_directives extra_roles : List String) :
    List PyNode → Except String (List (Int × Int × String))
  | [] => Except.ok []
  | c :: cs =>
    match visitNode lint extra_directives extra_roles c with
    | Except.error e => Except.error e
    | Except.ok ds =>
      match visitChildren lint extra_directives extra_roles cs with
      | Except.error e => Except.error e
      | Except.ok rest => Except.ok (ds ++ rest)

end

/-- A validator stub that always raises; the exception renders as "boom". -/
def failingLint : String → Except String (List Violation) :=
  fun _ => Except.error "boom"

/-- A validator stub returning one fixed warning-level violation. -/
def warningLint : String → Except String (List Violation) :=
  fun _ => Except.ok [Violation.mk 2 2 "Title underline too short."]

/-- A module node carrying a docstring, exercising the failure handler on
the module root. -/
def moduleFixture : PyNode :=
  PyNode.mk NodeKind.module none 0 (some ("bad", 2)) []

/-- A function node carrying a two-line docstring. -/
def fnFixture : PyNode :=
  PyNode.mk NodeKind.functionDef (some "f") 4 (some ("x\n  y", 3)) []

/-! ## Helper lemmas -/

theorem visitNode_eq (lint : String → Except String (List Violation))
    (extra_directives extra_roles : List String) (k : NodeKind) (nm : Option String)
    (col : Int) (fss : Option (String × Int)) (children : List PyNode) :
    visitNode lint extra_directives extra_roles (PyNode.mk k nm col fss children) =
      match checkDocstring lint extra_directives extra_roles
              (PyNode.mk k nm col fss children) with
      | Except.error e => Except.error e
      | Except.ok own =>
        match visitChildren lint extra_directives extra_roles children with
        | Except.error e => Except.error e
        | Except.ok rest => Except.ok (own ++ rest) := by
  rw [visitNode]

theorem lstrip_eq_nil_iff (s : List Char) : lstrip s = [] ↔ ∀ c ∈ s, pyIsSpace c := by
  simp [lstrip, List.dropWhile_eq_nil_iff]

theorem rstrip_eq_nil_iff (s : List Char) : rstrip s = [] ↔ ∀ c ∈ s, pyIsSpace c := by
  simp [rstrip, List.dropWhile_eq_nil_iff]

theorem joinlines_singleton (x : List Char) : joinlines [x] = x := by
  simp [joinlines]

theorem minIndent_eq_none (ls : List (List Char)) (h : ∀ l ∈ ls, lstrip l = []) :
    minIndent ls = none := by
  induction ls with
  | nil => rfl
  | cons l rest ih =>
    have hl : lstrip l = [] := h l (List.mem_cons_self l rest)
    have : minIndentStep none l = none := by simp [minIndentStep, hl]
    simpa [minIndent, List.foldl_cons, this] using
      ih (fun x hx => h x (List.mem_cons_of_mem l hx))

/-! ## Claim theorems -/

/-- C1: for a node with a multi-line raw docstring, the computed start line
is the first body statement's line minus the docstring's line count, the
count incremented by one when the last line is not pure whitespace; for a
one-line raw docstring, the start line is the statement's line minus 1,
regardless of the last-line whitespace rule. -/
theorem c1_doc_start_lineno_cases (e : Int) (d : List Char) :
    (2 ≤ (splitlines d).length →
      doc_start_lineno e d =
        e - (((splitlines d).length : Int) +
             (if pureWhitespace ((splitlines d).getLastD []) then 0 else 1))) ∧
    ((splitlines d).length = 1 → doc_start_lineno e d = e - 1) := by
  unfold doc_start_lineno
  constructor
  · intro h2
    have h1 : ¬ (splitlines d).length = 1 := by omega
    simp only [h1, if_false]
    split
    · ring
    · push_cast
      ring
  · intro h1
    simp [h1]

/-- C4: the four concrete evaluations of code_mapping: the exact-table hit,
the fixed-text fallback, the suppression through extra_directives, and the
default for an unknown message. -/
theorem c4_code_mapping_examples :
    code_mapping 2 "Title underline too short." [] [] 99 = some 12 ∧
    code_mapping 3 "Unknown directive type \"req\"." [] [] 99 = some 3 ∧
    code_mapping 3 "Unknown directive type \"req\"." ["req"] [] 99 = some 0 ∧
    code_mapping 1 "totally novel message" [] [] 99 = some 99 := by
  decide

/-- C2 counterexample: on the input "a\n " (second line a single space, so
no line after the first holds a non-whitespace character) trim DROPS the
second line entirely: the output is "a", not the "a\n" the claim's
description (second line kept, trailing whitespace stripped) would give,
and the trimmed line list has one line where the input had two. -/
theorem c2_counterexample :
    trim "a\n ".data = "a".data ∧
    trim "a\n ".data ≠ "a\n".data ∧
    (trimmedLines "a\n ".data).length = 1 ∧
    (splitlines "a\n ".data).length = 2 := by
  decide

/-- C2 (amended): for every non-empty input in which no line after the
first contains a non-whitespace character, the indent is never
established (the sys.maxsize sentinel survives), so trim drops every line
after the first and returns exactly the first line stripped of
surrounding whitespace. -/
theorem c2_blank_tail_dropped (d : List Char) (h0 : d ≠ [])
    (hb : ∀ l ∈ (splitlines (expandtabs d)).tail, lstrip l = []) :
    trimmedLines d = [strip ((splitlines (expandtabs d)).headD [])] ∧
    trim d = strip ((splitlines (expandtabs d)).headD []) := by
  have hmin : minIndent (splitlines (expandtabs d)).tail = none :=
    minIndent_eq_none _ hb
  have ht : trimmedLines d = [strip ((splitlines (expandtabs d)).headD [])] := by
    simp only [trimmedLines, hmin]
  refine ⟨ht, ?_⟩
  rw [trim, if_neg h0, ht, joinlines_singleton]

/-- C2 witness instance. -/
theorem c2_blank_tail_dropped_witness :
    trimmedLines "x\n \n\t".data =
      [strip ((splitlines (expandtabs "x\n \n\t".data)).headD [])] ∧
    trim "x\n \n\t".data = strip ((splitlines (expandtabs "x\n \n\t".data)).headD []) :=
  c2_blank_tail_dropped "x\n \n\t".data (by decide) (by decide)

/-- C3: for a docstring whose lines after tab expansion have, past the
first line, at least one non-blank line and a shared leading-whitespace
prefix whose length is the minimum indentation, trim removes exactly that
prefix (plus trailing whitespace) from each later line and strips only
surrounding whitespace from the first line; the line count is unchanged,
and every blank line - in particular a leading or trailing one - stays in
place as a (blank) line. -/
theorem c3_trim_common_indent (d l0 : List Char) (rest : List (List Char)) (p : List Char)
    (hsplit : splitlines (expandtabs d) = l0 :: rest)
    (hws : ∀ c ∈ p, pyIsSpace c)
    (hpre : ∀ l ∈ rest, l.take p.length = p)
    (hmin : minIndent rest = some p.length) :
    trimmedLines d = strip l0 :: rest.map (fun l => rstrip (l.drop p.length)) ∧
    (trimmedLines d).length = (splitlines (expandtabs d)).length ∧
    ∀ l ∈ rest, (lstrip l = [] ↔ rstrip (l.drop p.length) = []) := by
  have ht : trimmedLines d = strip l0 :: rest.map (fun l => rstrip (l.drop p.length)) := by
    simp only [trimmedLines, hsplit, List.tail_cons, List.headD_cons, hmin]
  refine ⟨ht, ?_, ?_⟩
  · rw [ht, hsplit]
    simp
  · intro l hl
    constructor
    · intro hblank
      have hal : ∀ c ∈ l, pyIsSpace c := (lstrip_eq_nil_iff l).1 hblank
      exact (rstrip_eq_nil_iff _).2 fun c hc => hal c (List.mem_of_mem_drop hc)
    · intro hr
      have hdropws : ∀ c ∈ l.drop p.length, pyIsSpace c := (rstrip_eq_nil_iff _).1 hr
      refine (lstrip_eq_nil_iff l).2 fun c hc => ?_
      rw [← List.take_append_drop p.length l] at hc
      rcases List.mem_append.1 hc with h | h
      · exact hws c (by rwa [hpre l hl] at h)
      · exact hdropws c h

/-- C3 witness instance. -/
theorem c3_trim_common_indent_witness :
    trimmedLines "a\n  b\n  ".data =
      strip "a".data ::
        (["  b".data, "  ".data].map (fun l => rstrip (l.drop ("  ".data).length))) :=
  (c3_trim_common_indent "a\n  b\n  ".data "a".data ["  b".data, "  ".data] "  ".data
    (by decide) (by decide) (by decide) (by decide)).1

theorem lookupMsg_le : ∀ (t : List (String × Nat)), (∀ pr ∈ t, pr.2 ≤ 99) →
    ∀ (msg : String) (c : Nat), lookupMsg t msg = some c → c ≤ 99
  | [], _, msg, c, hc => by simp [lookupMsg] at hc
  | (k, v) :: rest, h, msg, c, hc => by
    rw [lookupMsg] at hc
    split at hc
    · cases hc
      exact h (k, v) (List.mem_cons_self _ _)
    · exact lookupMsg_le rest (fun pr hpr => h pr (List.mem_cons_of_mem _ hpr)) msg c hc

theorem tables_le (level : Nat) (t : List (String × Nat))
    (h : code_mappings_by_level level = some t) : ∀ pr ∈ t, pr.2 ≤ 99 := by
  unfold code_mappings_by_level at h
  split at h <;>
    first
      | (cases h; decide)
      | exact absurd h (by simp)

theorem code_mappings_by_level_isSome (level : Nat) (h1 : 1 ≤ level) (h4 : level ≤ 4) :
    ∃ t, code_mappings_by_level level = some t := by
  interval_cases level <;> exact ⟨_, rfl⟩

theorem code_mapping_range (level : Nat) (msg : String) (dirs roles : List String)
    (h1 : 1 ≤ level) (h4 : level ≤ 4) :
    ∃ c, code_mapping level msg dirs roles 99 = some c ∧ c ≤ 99 := by
  obtain ⟨t, ht⟩ := code_mappings_by_level_isSome level h1 h4
  have htle := tables_le level t ht
  unfold code_mapping
  rw [ht]
  cases hl : lookupMsg t msg with
  | some c =>
    exact ⟨c, by simp [hl], lookupMsg_le t htle msg c hl⟩
  | none =>
    simp only [Option.some_bind, hl]
    split
    · split
      · exact ⟨0, rfl, by omega⟩
      · split
        · exact ⟨0, rfl, by omega⟩
        · cases hl2 : lookupMsg t (String.mk (beforeSpaceQuote msg.data)) with
          | some v =>
            exact ⟨v, by simp [hl2], lookupMsg_le t htle _ v hl2⟩
          | none => exact ⟨99, by simp [hl2], le_refl 99⟩
    · exact ⟨99, rfl, le_refl 99⟩

/-- C5: for every level in 1..4 and every message, code_mapping with the
default argument 99 returns some value in [0, 99] - it never raises - and
a message with no exact table entry that does not fit the two-quote
pattern (exactly two double quotes, a space-quote pair, a trailing
quote-period) is mapped to the default 99, never dropped. -/
theorem c5_code_mapping_total (level : Nat) (msg : String) (dirs roles : List String)
    (h1 : 1 ≤ level) (h4 : level ≤ 4) :
    (∃ c, code_mapping level msg dirs roles 99 = some c ∧ c ≤ 99) ∧
    ((code_mappings_by_level level).bind (fun t => lookupMsg t msg) = none →
      ((msg.data.count '\"' == 2) && hasSpaceQuote msg.data &&
        endsWithQuoteDot msg.data) = false →
      code_mapping level msg dirs roles 99 = some 99) := by
  refine ⟨code_mapping_range level msg dirs roles h1 h4, ?_⟩
  intro hmiss hpat
  unfold code_mapping
  rw [hmiss, hpat]
  rfl

/-- C5 witness instance. -/
theorem c5_code_mapping_total_witness :
    ∃ c, code_mapping 2 "zzz" [] [] 99 = some c ∧ c ≤ 99 :=
  (c5_code_mapping_total 2 "zzz" [] [] (by decide) (by decide)).1

theorem processViolations_spec (docStart colOffset : Int)
    (dirs roles : List String) (vs : List Violation)
    (hlev : ∀ v ∈ vs, 1 ≤ v.level ∧ v.level ≤ 4) :
    (processViolations docStart colOffset dirs roles vs).2 = none ∧
    ∀ d ∈ (processViolations docStart colOffset dirs roles vs).1,
      ∃ v ∈ vs, 2 ≤ v.level ∧
        ∃ code, code_mapping v.level (firstLine v.message) dirs roles 99 = some code ∧
          1 ≤ code ∧ code ≤ 99 ∧
          d = (docStart + v.line, colOffset,
               rstPrefix ++ format03 (code + 100 * v.level) ++ " " ++ firstLine v.message) := by
  induction vs with
  | nil => exact ⟨rfl, by simp [processViolations]⟩
  | cons v rest ih =>
    have hv := hlev v (List.mem_cons_self _ _)
    have ihr := ih (fun w hw => hlev w (List.mem_cons_of_mem _ hw))
    by_cases hlv : v.level ≤ 1
    · rw [processViolations, if_pos hlv]
      refine ⟨ihr.1, fun d hd => ?_⟩
      obtain ⟨w, hwm, hwp⟩ := ihr.2 d hd
      exact ⟨w, List.mem_cons_of_mem _ hwm, hwp⟩
    · obtain ⟨c, hc, hcle⟩ :=
        code_mapping_range v.level (firstLine v.message) dirs roles (by omega) hv.2
      simp only [processViolations, if_neg hlv, hc]
      by_cases hc0 : c = 0
      · simp only [if_pos hc0]
        refine ⟨ihr.1, fun d hd => ?_⟩
        obtain ⟨w, hwm, hwp⟩ := ihr.2 d hd
        exact ⟨w, List.mem_cons_of_mem _ hwm, hwp⟩
      · have hlt : c < 100 := by omega
        simp only [if_neg hc0, if_pos hlt]
        refine ⟨ihr.1, fun d hd => ?_⟩
        rcases List.mem_cons.1 hd with hdh | hdt
        · exact ⟨v, List.mem_cons_self _ _, by omega, c, hc, by omega, hcle, hdh⟩
        · obtain ⟨w, hwm, hwp⟩ := ihr.2 d hdt
          exact ⟨w, List.mem_cons_of_mem _ hwm, hwp⟩

/-- C7: when every validator level lies in 1..4, the violation loop raises
nothing, and every diagnostic it emits comes from a violation of severity
at least 2 whose mapped local code lies in [1, 99], the message carrying
the code 100 * level + local code; violations of level 1 or lower and
violations whose local code is 0 never appear in the output. -/
theorem c7_emitted_codes (docStart colOffset : Int) (dirs roles : List String)
    (vs : List Violation) (hlev : ∀ v ∈ vs, 1 ≤ v.level ∧ v.level ≤ 4) :
    (processViolations docStart colOffset dirs roles vs).2 = none ∧
    ∀ d ∈ (processViolations docStart colOffset dirs roles vs).1,
      ∃ v ∈ vs, 2 ≤ v.level ∧
        ∃ code, code_mapping v.level (firstLine v.message) dirs roles 99 = some code ∧
          1 ≤ code ∧ code ≤ 99 ∧
          d.2.2 = rstPrefix ++ format03 (100 * v.level + code) ++ " " ++
            firstLine v.message := by
  obtain ⟨h2, hall⟩ := processViolations_spec docStart colOffset dirs roles vs hlev
  refine ⟨h2, fun d hd => ?_⟩
  obtain ⟨v, hvm, hv2, code, hcm, h1c, h99, hdeq⟩ := hall d hd
  subst hdeq
  exact ⟨v, hvm, hv2, code, hcm, h1c, h99, by rw [Nat.add_comm]⟩

/-- C7 witness instance. -/
theorem c7_emitted_codes_witness :
    (processViolations 5 0 [] []
        [Violation.mk 1 1 "x", Violation.mk 2 1 "Title underline too short."]).2 = none :=
  (c7_emitted_codes 5 0 [] []
    [Violation.mk 1 1 "x", Violation.mk 2 1 "Title underline too short."] (by decide)).1

/-- C8: for a node whose docstring lints successfully with validator levels
in 1..4, every emitted violation diagnostic sits at doc_start_lineno plus
the violation's 1-based in-text line, and its column is the node's
col_offset for class/function definitions and the fixed sentinel -1 for
the module root. -/
theorem c8_positions (lint : String → Except String (List Violation))
    (dirs roles : List String) (node : PyNode) (doc : String) (stmtLine : Int)
    (vs : List Violation)
    (hfss : node.firstStmtStr = some (doc, stmtLine)) (hne : doc ≠ "")
    (hlint : lint (String.mk (trim doc.data)) = Except.ok vs)
    (hlev : ∀ v ∈ vs, 1 ≤ v.level ∧ v.level ≤ 4) :
    ∃ l, checkDocstring lint dirs roles node = Except.ok l ∧
      ∀ d ∈ l, ∃ v ∈ vs,
        d.1 = doc_start_lineno stmtLine doc.data + v.line ∧
        d.2.1 = if node.kind = NodeKind.module then (-1 : Int) else node.col_offset := by
  obtain ⟨k, nm, col, fss, children⟩ := node
  simp only [PyNode.firstStmtStr] at hfss
  subst hfss
  simp only [PyNode.kind, PyNode.col_offset]
  obtain ⟨h2, hall⟩ := processViolations_spec (doc_start_lineno stmtLine doc.data)
    (if k = NodeKind.module then (-1 : Int) else col) dirs roles vs hlev
  have heval : checkDocstring lint dirs roles
      (PyNode.mk k nm col (some (doc, stmtLine)) children) =
      Except.ok (processViolations (doc_start_lineno stmtLine doc.data)
        (if k = NodeKind.module then (-1 : Int) else col) dirs roles vs).1 := by
    simp only [checkDocstring, PyNode.firstStmtStr, PyNode.kind, PyNode.col_offset,
      PyNode.name]
    rw [if_neg hne]
    split
    · rename_i err heq
      rw [hlint] at heq
      simp at heq
    · rename_i violations heq
      rw [hlint] at heq
      injection heq with heq'
      subst heq'
      split
      · rename_i ds heq2
        rw [heq2]
      · rename_i ds err heq2
        rw [heq2] at h2
        simp at h2
  refine ⟨_, heval, fun d hd => ?_⟩
  obtain ⟨v, hvm, _, code, _, _, _, hdeq⟩ := hall d hd
  subst hdeq
  exact ⟨v, hvm, rfl, rfl⟩

/-- C8 witness instance. -/
theorem c8_positions_witness :
    ∃ l, checkDocstring warningLint [] [] fnFixture = Except.ok l ∧
      ∀ d ∈ l, ∃ v ∈ [Violation.mk 2 2 "Title underline too short."],
        d.1 = doc_start_lineno 3 ("x\n  y").data + v.line ∧
        d.2.1 = if fnFixture.kind = NodeKind.module then (-1 : Int)
                else fnFixture.col_offset :=
  c8_positions warningLint [] [] fnFixture "x\n  y" 3
    [Violation.mk 2 2 "Title underline too short."]
    (by rfl) (by decide) (by rfl) (by decide)

/-- C6: the claim fails on the module root, where the code is the slip:
when the validator raises on the module docstring, the except handler
formats node.name, ast.Module has no name attribute, and the resulting
AttributeError escapes the per-docstring boundary and aborts the
traversal instead of yielding one 903 diagnostic.  For a named function
node the handler does emit exactly the single 903 diagnostic naming the
node and the underlying error. -/
theorem c6_module_failure_escapes :
    checkDocstring failingLint [] [] moduleFixture =
      Except.error "AttributeError: Module object has no attribute name" ∧
    visitNode failingLint [] [] moduleFixture =
      Except.error "AttributeError: Module object has no attribute name" ∧
    checkDocstring failingLint [] [] fnFixture =
      Except.ok [(0, 4, "RST903 Failed to lint docstring: f - boom")] := by
  refine ⟨rfl, ?_, rfl⟩
  unfold moduleFixture
  rw [visitNode_eq]
  rfl

/-- C9: a module/class/function node whose first body statement is not a
bare string literal (or whose body is empty) contributes no diagnostic and
raises nothing, and the traversal still recurses into its children. -/
theorem c9_no_docstring_skipped (lint : String → Except String (List Violation))
    (dirs roles : List String) (node : PyNode) (h : node.firstStmtStr = none) :
    checkDocstring lint dirs roles node = Except.ok [] ∧
    visitNode lint dirs roles node = visitChildren lint dirs roles node.children := by
  obtain ⟨k, nm, col, fss, children⟩ := node
  simp only [PyNode.firstStmtStr] at h
  subst h
  have hc : checkDocstring lint dirs roles (PyNode.mk k nm col none children) =
      Except.ok [] := rfl
  refine ⟨hc, ?_⟩
  rw [visitNode_eq, hc]
  show (match visitChildren lint dirs roles children with
        | Except.error e => Except.error e
        | Except.ok rest => Except.ok ([] ++ rest)) =
      visitChildren lint dirs roles children
  cases hvc : visitChildren lint dirs roles children with
  | error e => rfl
  | ok rest => simp

/-- C9 witness instance. -/
theorem c9_no_docstring_skipped_witness :
    checkDocstring warningLint [] []
        (PyNode.mk NodeKind.classDef (some "C") 0 none [fnFixture]) = Except.ok [] ∧
    visitNode warningLint [] []
        (PyNode.mk NodeKind.classDef (some "C") 0 none [fnFixture]) =
      visitChildren warningLint [] []
        (PyNode.mk NodeKind.classDef (some "C") 0 none [fnFixture]).children :=
  c9_no_docstring_skipped warningLint [] []
    (PyNode.mk NodeKind.classDef (some "C") 0 none [fnFixture]) rfl

/-- C10: a node whose first body statement is the empty-string literal is
treated exactly as a node with no docstring: the check yields no
diagnostic (no trimming, validation or position computation happens), and
the visit coincides with that of the docstring-free node. -/
theorem c10_empty_docstring_skipped (lint : String → Except String (List Violation))
    (dirs roles : List String) (k : NodeKind) (nm : Option String) (col stmtLine : Int)
    (children : List PyNode) :
    checkDocstring lint dirs roles (PyNode.mk k nm col (some ("", stmtLine)) children) =
      Except.ok [] ∧
    checkDocstring lint dirs roles (PyNode.mk k nm col (some ("", stmtLine)) children) =
      checkDocstring lint dirs roles (PyNode.mk k nm col none children) ∧
    visitNode lint dirs roles (PyNode.mk k nm col (some ("", stmtLine)) children) =
      visitNode lint dirs roles (PyNode.mk k nm col none children) := by
  refine ⟨rfl, rfl, ?_⟩
  rw [visitNode_eq, visitNode_eq]
  rfl

end RstDocstrings
